import Mathlib

/-!
A shallow embedding of the peer-to-peer UDP chat client of this
repository.  Two variants of the client exist in the sources:
`src/unnamed/part_000` (variant A below), which picks the dial target by
comparing the two peers' public IPs, and `src/client.go` (variant B),
which prefers the remote private IP whenever it lies in a private range
and otherwise dials the public IP, with a one-shot fallback retry on
resolution failure.  In both variants the whole mutable peer state is
the single global pointer `otherPeerAddr`, modelled as `Option Addr`.
The stdlib call `net.ResolveUDPAddr` is modelled on its deterministic,
DNS-free fragment, documented at `resolveUDP`.
-/

namespace ClientStreaming

/-- A resolved UDP address as this client builds them: the host string as it
appeared in the dialled address (or `""` for the unspecified host) and the
numeric port.  Models the `*net.UDPAddr` values stored in `otherPeerAddr`. -/
abbrev Addr := String × Nat

/-- Rendering of `(*net.UDPAddr).String()` for the addresses this client
builds: `host:port` with the port printed in decimal (a `nil`/empty IP prints
as an empty host, giving `:port`). -/
def addrToString (a : Addr) : String := a.1 ++ ":" ++ toString a.2

/-- One entry of the decoded `[]map[string]string` peer list.  Go map reads
of absent keys yield `""`, so the three keys the client reads suffice. -/
structure PeerInfo where
  public_ip : String
  private_ip : String
  port : String
deriving DecidableEq, Repr

/-- Decimal value of one character, `none` when it is not an ASCII digit. -/
def digitVal (c : Char) : Option Nat :=
  if '0'.toNat ≤ c.toNat && c.toNat ≤ '9'.toNat then some (c.toNat - '0'.toNat)
  else none

/-- Accumulating decimal reading of a character list; fails on the first
non-digit. -/
def digitsValAux (acc : Nat) : List Char → Option Nat
  | [] => some acc
  | c :: cs =>
    match digitVal c with
    | some d => digitsValAux (acc * 10 + d) cs
    | none => none

/-- Decimal value of a non-empty all-digit character list. -/
def digitsVal : List Char → Option Nat
  | [] => none
  | cs => digitsValAux 0 cs

/-- Splitting of a character list at every `'.'` (the groups keep their
order; `n` dots give `n + 1` groups). -/
def splitDot : List Char → List (List Char)
  | [] => [[]]
  | c :: cs =>
    let r := splitDot cs
    if c == '.' then [] :: r
    else
      match r with
      | [] => [[c]]
      | g :: gs => (c :: g) :: gs

/-- One dotted-decimal IPv4 field as Go's IP-literal parser accepts it
(Go 1.17 and later): one to three digits, no leading zero, value at
most 255. -/
def isIPv4Field (cs : List Char) : Bool :=
  match digitsVal cs with
  | none => false
  | some v =>
    decide (cs.length ≤ 3) &&
      (match cs with
       | '0' :: _ :: _ => false
       | _ => true) &&
      decide (v ≤ 255)

/-- An IPv4 literal: exactly four valid dotted-decimal fields. -/
def isIPv4 (cs : List Char) : Bool :=
  match splitDot cs with
  | [a, b, c, d] => isIPv4Field a && isIPv4Field b && isIPv4Field c && isIPv4Field d
  | _ => false

/-- Modelled from Go `net.LookupPort` restricted to its decimal fragment (no
service-name lookup): an empty string is port `0`, otherwise the string must
be all digits with value at most 65535. -/
def parsePortDec (s : String) : Option Nat :=
  match s.data with
  | [] => some 0
  | cs =>
    match digitsVal cs with
    | some n => if n ≤ 65535 then some n else none
    | none => none

/-- Modelled from Go `net.ResolveUDPAddr "udp" (host ++ ":" ++ port)` on the
strings this client composes, restricted to the deterministic DNS-free
fragment: a colon inside the host makes `SplitHostPort` fail (the client
never brackets hosts), an empty host is the unspecified address, a host that
is not an IPv4 literal would need a DNS lookup and is treated as
unresolvable, and ports are decimal only. -/
def resolveUDP (host port : String) : Option Addr :=
  if host.data.any (fun c => c == ':') then none
  else
    match parsePortDec port with
    | none => none
    | some p =>
      if host = "" then some ("", p)
      else if isIPv4 host.data then some (host, p)
      else none

/-- Leading-match test of a pattern character list against a list. -/
def leadMatch : List Char → List Char → Bool
  | [], _ => true
  | _ :: _, [] => false
  | p :: ps, c :: cs => p == c && leadMatch ps cs

/-- Go `strings.HasPrefix s pat` on the embedded strings. -/
def strStartsWith (s pat : String) : Bool := leadMatch pat.data s.data

/-- Target-IP choice of `src/unnamed/part_000` lines 134-146: the remote
private IP when this peer's public IP is non-empty and equal to the remote
public IP, the remote public IP otherwise. -/
def selectIPA (myPublicIP : String) (peer : PeerInfo) : String :=
  if myPublicIP != "" && myPublicIP == peer.public_ip then peer.private_ip
  else peer.public_ip

/-- The candidate address string `targetIP + ":" + port` composed by
variant A (`src/unnamed/part_000` line 149). -/
def candStrA (myPublicIP : String) (peer : PeerInfo) : String :=
  selectIPA myPublicIP peer ++ ":" ++ peer.port

/-- The prefix table of `isPrivateIP` in `src/client.go` lines 197-217. -/
def privateRanges : List String :=
  ["10.", "172.16.", "172.17.", "172.18.", "172.19.", "172.20.", "172.21.",
   "172.22.", "172.23.", "172.24.", "172.25.", "172.26.", "172.27.", "172.28.",
   "172.29.", "172.30.", "172.31.", "192.168.", "127."]

/-- The `isPrivateIP` function of `src/client.go` lines 196-224: true when
the string starts with one of the listed prefixes. -/
def isPrivateIP (ip : String) : Bool :=
  privateRanges.any fun r => strStartsWith ip r

/-- Primary target host of `src/client.go` lines 124-131: the remote private
IP whenever it is non-empty and passes `isPrivateIP`, the remote public IP
otherwise.  This choice reads only the remote record. -/
def selectHostB (peer : PeerInfo) : String :=
  if peer.private_ip != "" && isPrivateIP peer.private_ip then peer.private_ip
  else peer.public_ip

/-- The candidate address string composed by variant B. -/
def candStrB (peer : PeerInfo) : String := selectHostB peer ++ ":" ++ peer.port

/-- Effect of one iteration of a signaling receive loop on the tracked peer
pointer, together with the punch burst this iteration spawned, if any. -/
structure StepResult where
  state : Option Addr
  punched : Option Addr
deriving DecidableEq, Repr

/-- One iteration of the signaling receive goroutine of
`src/unnamed/part_000` (lines 119-177) on a successfully decoded peer list.
An empty list clears `otherPeerAddr`.  Otherwise only `receivedPeers[0]` is
examined; its target is selected by public-IP comparison; the iteration is
skipped when the composed candidate string equals the rendering of the
tracked address; otherwise the candidate is resolved, and on success the
pointer is replaced and one punch burst is spawned, while on failure the
iteration ends with everything unchanged. -/
def sigStepA (myPublicIP : String) (st : Option Addr)
    (receivedPeers : List PeerInfo) : StepResult :=
  match receivedPeers with
  | [] => ⟨none, none⟩
  | peerInfo :: _ =>
    let peerAddrStr := candStrA myPublicIP peerInfo
    if st.any (fun a => addrToString a == peerAddrStr) then ⟨st, none⟩
    else
      match resolveUDP (selectIPA myPublicIP peerInfo) peerInfo.port with
      | none => ⟨st, none⟩
      | some peerAddr => ⟨some peerAddr, some peerAddr⟩

/-- One iteration of the signaling receive goroutine of `src/client.go`
(lines 103-165): private-IP-first target choice, the same skip test, and on
resolution failure one retry with `public_ip:port` when `public_ip` is
non-empty. -/
def sigStepB (st : Option Addr) (receivedPeers : List PeerInfo) : StepResult :=
  match receivedPeers with
  | [] => ⟨none, none⟩
  | peerInfo :: _ =>
    let peerAddrStr := candStrB peerInfo
    if st.any (fun a => addrToString a == peerAddrStr) then ⟨st, none⟩
    else
      match resolveUDP (selectHostB peerInfo) peerInfo.port with
      | some peerAddr => ⟨some peerAddr, some peerAddr⟩
      | none =>
        if peerInfo.public_ip != "" then
          match resolveUDP peerInfo.public_ip peerInfo.port with
          | some peerAddr => ⟨some peerAddr, some peerAddr⟩
          | none => ⟨st, none⟩
        else ⟨st, none⟩

/-- The probe payload both variants send (the literal `"펀칭!"`). -/
def punchPayload : String := "펀칭!"

/-- Observable actions of the punch goroutine. -/
inductive PunchEvent
  | send (target : Addr) (payload : String)
  | sleepMs (ms : Nat)
deriving DecidableEq, Repr

/-- Body of the punch goroutine of both variants: at most `fuel` iterations;
each iteration re-reads the global `otherPeerAddr` (modelled as the value
`f i` the global holds at iteration `i`), breaks out of the loop when it is
`nil`, and otherwise sends one probe datagram to it and sleeps 100 ms. -/
def punchLoop : Nat → (Nat → Option Addr) → Nat → List PunchEvent
  | 0, _, _ => []
  | n + 1, f, i =>
    match f i with
    | none => []
    | some a => .send a punchPayload :: .sleepMs 100 :: punchLoop n f (i + 1)

/-- The spawned burst `go func() { for i := 0; i < 10; i++ { ... } }()` of
both variants (`src/unnamed/part_000` lines 169-177). -/
def punchBurst (f : Nat → Option Addr) : List PunchEvent := punchLoop 10 f 0

/-- Number of probe datagrams an event list sends. -/
def sendCount : List PunchEvent → Nat
  | [] => 0
  | .send _ _ :: es => sendCount es + 1
  | .sleepMs _ :: es => sendCount es

/-- One iteration of the UDP receive goroutine of both variants
(`src/unnamed/part_000` lines 181-191): the datagram is only logged; no peer
state is read or written.  Returns the unchanged tracked state and the log
line produced. -/
def udpRecvStep (st : Option Addr) (sender : Addr) (payload : String) :
    Option Addr × String :=
  (st, "UDP 메시지 수신 from " ++ addrToString sender ++ ": " ++ payload)

/-- Observable actions of one chat-input iteration. -/
inductive ChatEffect
  | sendTo (target : Addr) (text : String)
  | logNoPeers
deriving DecidableEq, Repr

/-- One iteration of the chat input loop of both variants
(`src/unnamed/part_000` lines 195-205): with a tracked peer, one
`WriteToUDP` of the line to it; otherwise the "no peer connected yet" log
line. -/
def chatStep (st : Option Addr) (text : String) : List ChatEffect :=
  match st with
  | some a => [.sendTo a text]
  | none => [.logNoPeers]

/-- Addresses an effect list sends to, in order, one element per send. -/
def sendTargets : List ChatEffect → List Addr
  | [] => []
  | .sendTo a _ :: es => a :: sendTargets es
  | .logNoPeers :: es => sendTargets es

/-- Whether an effect list contains the "no peer connected yet" signal. -/
def signalsNoPeers (es : List ChatEffect) : Bool :=
  es.any fun e =>
    match e with
    | .logNoPeers => true
    | _ => false

/-- One inbound result of `ws.ReadJSON` in the signaling goroutine: either a
decoded peer list or a read/decode error. -/
inductive SigMsg
  | update (peers : List PeerInfo)
  | readError

/-- The whole signaling receive goroutine of variant A over a sequence of
inbound results: a `ws.ReadJSON` error makes the goroutine `return`, leaving
the tracked state as it was and processing nothing further; each decoded
list goes through `sigStepA`.  Returns the final tracked state and the
targets of all punch bursts spawned, in order. -/
def runSigLoopA (myPublicIP : String) (st : Option Addr) :
    List SigMsg → Option Addr × List Addr
  | [] => (st, [])
  | .readError :: _ => (st, [])
  | .update peers :: rest =>
    let r := sigStepA myPublicIP st peers
    let out := runSigLoopA myPublicIP r.state rest
    (out.1, r.punched.toList ++ out.2)

/-- The private-range prefixes exactly as the specification claim words
them: `10.`, `172.16.` through `172.31.`, `192.168.`, `127.`. -/
def claimPrivateRanges : List String :=
  ["10."] ++ ((List.range 16).map fun k => "172." ++ toString (16 + k) ++ ".")
    ++ ["192.168.", "127."]

/-- The claim-worded private-range test, to be compared with the source's
`isPrivateIP`. -/
def claimPrivate (ip : String) : Bool :=
  claimPrivateRanges.any fun r => strStartsWith ip r

/-- A trace of the global `otherPeerAddr` in which the peer departs after
the third probe: the global reads `nil` from iteration 3 on. -/
def departAfter3 : Nat → Option Addr := fun i =>
  if i < 3 then some ("9.9.9.9", 80) else none

/-- Helper for the punch-burst bound: a burst with `n` iterations of fuel
sends at most `n` probes, whatever the global pointer does. -/
theorem sendCount_punchLoop_le (f : Nat → Option Addr) :
    ∀ n i, sendCount (punchLoop n f i) ≤ n := by
  intro n
  induction n with
  | zero => intro i; simp [punchLoop, sendCount]
  | succ n ih =>
    intro i
    cases h : f i with
    | none => simp [punchLoop, h, sendCount]
    | some a =>
      simp only [punchLoop, h, sendCount]
      exact Nat.succ_le_succ (ih (i + 1))

/-- Claim C1, counterexample: with self public IP `1.1.1.1` and remote
record `{public 9.9.9.9, private "", port 99999}`, the chosen IP `9.9.9.9`
and the port `99999` are both non-empty, yet the cycle signals failure — no
address is selected and no punch burst starts, because `99999` exceeds the
largest UDP port.  This refutes "signals failure only when both the chosen
IP and the port are empty". -/
theorem c1_failure_counterexample :
    selectIPA "1.1.1.1" ⟨"9.9.9.9", "", "99999"⟩ = "9.9.9.9" ∧
    ("9.9.9.9" : String) ≠ "" ∧ ("99999" : String) ≠ "" ∧
    sigStepA "1.1.1.1" none [⟨"9.9.9.9", "", "99999"⟩] = ⟨none, none⟩ := by
  refine ⟨by decide, by decide, by decide, by decide⟩

/-- Claim C1, amended: the selection rule is as stated — equal non-empty
public IPs give the remote private IP, anything else the remote public
IP — but failure is signalled exactly when the composed candidate fails UDP
address resolution, which is not the both-components-empty condition: from
an untracked state the cycle leaves no address and spawns no punch iff
`resolveUDP` rejects the candidate. -/
theorem c1_address_selection_amended (myPublicIP : String) (peer : PeerInfo)
    (rest : List PeerInfo) :
    selectIPA myPublicIP peer =
      (if myPublicIP ≠ "" ∧ myPublicIP = peer.public_ip then peer.private_ip
       else peer.public_ip) ∧
    sigStepA myPublicIP none (peer :: rest) =
      (match resolveUDP (selectIPA myPublicIP peer) peer.port with
       | none => ⟨none, none⟩
       | some a => ⟨some a, some a⟩) := by
  constructor
  · by_cases h1 : myPublicIP = "" <;> by_cases h2 : myPublicIP = peer.public_ip <;>
      simp [selectIPA, h1, h2]
  · cases h : resolveUDP (selectIPA myPublicIP peer) peer.port <;>
      simp [sigStepA, h]

/-- Claim C2, counterexample: on the update
`[{public 2.2.2.2, port 1000}, {public 3.3.3.3, port 2000}]` both remote
candidates resolve and neither is tracked, yet the cycle spawns a punch
burst only toward the first candidate `2.2.2.2:1000`; no burst toward
`3.3.3.3:2000` exists, refuting "a hole-punch burst is started toward every
active candidate not already tracked". -/
theorem c2_second_identity_ignored :
    sigStepA "1.1.1.1" none [⟨"2.2.2.2", "", "1000"⟩, ⟨"3.3.3.3", "", "2000"⟩]
      = ⟨some ("2.2.2.2", 1000), some ("2.2.2.2", 1000)⟩ ∧
    some (("3.3.3.3", 2000) : Addr) ≠
      (sigStepA "1.1.1.1" none
        [⟨"2.2.2.2", "", "1000"⟩, ⟨"3.3.3.3", "", "2000"⟩]).punched := by
  constructor <;> decide

/-- Claim C2, amended: a non-empty peer-list update is processed by looking
at `receivedPeers[0]` alone — every identity after the first is ignored, so
at most one candidate is computed and at most one punch burst is started per
update. -/
theorem c2_first_identity_only (myPublicIP : String) (st : Option Addr)
    (peer : PeerInfo) (rest : List PeerInfo) :
    sigStepA myPublicIP st (peer :: rest) = sigStepA myPublicIP st [peer] := rfl

/-- Claim C3, counterexample: a datagram from address `5.5.5.5:700`, absent
from the (empty) tracked peer state, leaves the state empty — no confirmed
entry is created, refuting the promotion behaviour. -/
theorem c3_no_promotion_counterexample :
    (udpRecvStep none ("5.5.5.5", 700) "ping").1 = none := rfl

/-- Claim C3, amended: the UDP receive loop only logs the sender address and
payload; it never mutates the tracked peer state, so no entry is created or
confirmed by an inbound datagram and any number of datagrams leave the state
unchanged. -/
theorem c3_receive_leaves_state_unchanged (st : Option Addr) (sender : Addr)
    (payload : String) : (udpRecvStep st sender payload).1 = st := rfl

/-- Claim C4 (confirmed): for every input line, the chat loop issues exactly
one send per tracked address — the tracked state being the single optional
`otherPeerAddr`, this is one send when a peer is tracked and zero when not —
and it signals "no peers yet" exactly when no peer is tracked. -/
theorem c4_broadcast_fanout (st : Option Addr) (text : String) :
    sendTargets (chatStep st text) = st.toList ∧
    signalsNoPeers (chatStep st text) = st.isNone := by
  cases st <;> exact ⟨rfl, rfl⟩

/-- Claim C5, counterexample: on a trace where the tracked peer departs
(the global pointer becomes `nil`) after three iterations, the burst sends
3 probes, not 10 — the `if otherPeerAddr == nil break` in the punch
goroutine cancels the burst mid-way, refuting "the burst is never
cancelled". -/
theorem c5_burst_cancelled_counterexample :
    sendCount (punchBurst departAfter3) ≠ 10 ∧
    sendCount (punchBurst departAfter3) = 3 := by
  constructor <;> decide

/-- Claim C5, amended: while the tracked address stays set, the burst sends
exactly 10 probe datagrams, each followed by a 100 ms sleep; the burst stops
early when the tracked address becomes `nil`, and in every case at most 10
probes are sent (no retry). -/
theorem c5_punch_burst_amended (a : Addr) (f : Nat → Option Addr) :
    punchBurst (fun _ => some a) =
      (List.replicate 10 [PunchEvent.send a punchPayload,
        PunchEvent.sleepMs 100]).flatten ∧
    sendCount (punchBurst f) ≤ 10 :=
  ⟨rfl, sendCount_punchLoop_le f 10 0⟩

/-- Claim C6, counterexample: in `src/client.go`, the remote record
`{public 2.2.2.2, private 192.168.:5, port 1000}` passes the private-prefix
test, its composed private candidate fails resolution (colon inside the
host), and the code then retries with the alternate public address and
punches `2.2.2.2:1000` — refuting "no retry with the alternate (public vs.
private) address is attempted at this layer". -/
theorem c6_fallback_counterexample :
    isPrivateIP "192.168.:5" = true ∧
    resolveUDP (selectHostB ⟨"2.2.2.2", "192.168.:5", "1000"⟩) "1000" = none ∧
    sigStepB none [⟨"2.2.2.2", "192.168.:5", "1000"⟩]
      = ⟨some ("2.2.2.2", 1000), some ("2.2.2.2", 1000)⟩ := by
  refine ⟨by decide, by decide, by decide⟩

/-- Claim C6, amended: in `src/unnamed/part_000` a candidate that fails to
resolve makes the cycle skip the peer with no alternate-address retry; in
`src/client.go`, when the private-preferred candidate fails to resolve and
the remote public IP is non-empty, one retry with `public_ip:port` is
attempted (the peer is skipped only if that also fails). -/
theorem c6_no_alternate_retry_amended (myPublicIP : String) (st : Option Addr)
    (peer : PeerInfo) (rest : List PeerInfo) :
    (resolveUDP (selectIPA myPublicIP peer) peer.port = none →
      sigStepA myPublicIP st (peer :: rest) = ⟨st, none⟩) ∧
    (resolveUDP (selectHostB peer) peer.port = none → peer.public_ip ≠ "" →
      sigStepB none (peer :: rest) =
        (match resolveUDP peer.public_ip peer.port with
         | some a => ⟨some a, some a⟩
         | none => ⟨none, none⟩)) := by
  constructor
  · intro hA
    simp only [sigStepA]
    split
    · rfl
    · rw [hA]
  · intro hB hpub
    simp only [sigStepB, Option.any_none, Bool.false_eq_true, if_false]
    rw [hB]
    simp [hpub]

/-- Claim C6, witness: the amended theorem applied at the concrete records
above — variant A skips `{9.9.9.9, port 99999}` outright, while variant B
falls back to `2.2.2.2:1000`. -/
theorem c6_no_alternate_retry_witness :
    sigStepA "1.1.1.1" none [⟨"9.9.9.9", "", "99999"⟩] = ⟨none, none⟩ ∧
    sigStepB none [⟨"2.2.2.2", "192.168.:5", "1000"⟩]
      = ⟨some ("2.2.2.2", 1000), some ("2.2.2.2", 1000)⟩ := by
  constructor
  · exact (c6_no_alternate_retry_amended "1.1.1.1" none
      ⟨"9.9.9.9", "", "99999"⟩ []).1 (by decide)
  · exact ((c6_no_alternate_retry_amended "1.1.1.1" none
      ⟨"2.2.2.2", "192.168.:5", "1000"⟩ []).2 (by decide) (by decide)).trans
      (by decide)

/-- Claim C7 (confirmed): an empty peer-list update clears the tracked peer
state in both variants and spawns no punch burst, and with the cleared
state the chat loop has no broadcast destination — it only signals "no
peers". -/
theorem c7_empty_update_clears (myPublicIP : String) (st : Option Addr)
    (text : String) :
    sigStepA myPublicIP st [] = ⟨none, none⟩ ∧
    sigStepB st [] = ⟨none, none⟩ ∧
    sendTargets (chatStep none text) = [] ∧
    signalsNoPeers (chatStep none text) = true :=
  ⟨rfl, rfl, rfl, rfl⟩

/-- Claim C8 (confirmed): a read/decode error on the signaling channel makes
the receive loop return at once with the tracked state exactly as it was
and no punch spawned, and everything after the error is dead — the loop's
outcome does not depend on any message following the first error. -/
theorem c8_channel_fatal_stops_loop (myPublicIP : String) (st : Option Addr)
    (pre rest rest' : List SigMsg) :
    runSigLoopA myPublicIP st (SigMsg.readError :: rest) = (st, []) ∧
    runSigLoopA myPublicIP st (pre ++ SigMsg.readError :: rest) =
      runSigLoopA myPublicIP st (pre ++ SigMsg.readError :: rest') := by
  refine ⟨rfl, ?_⟩
  induction pre generalizing st with
  | nil => rfl
  | cons m pre ih =>
    cases m with
    | readError => rfl
    | update peers =>
      simp only [List.cons_append, runSigLoopA, List.append_eq]
      rw [ih]

/-- Claim C9, counterexample: the update `[{public 9.9.9.9, port 0080}]`
resolves to an address that renders as `9.9.9.9:80`, never equal to the
recomputed candidate string `9.9.9.9:0080`, so applying the identical
update a second time spawns a second punch burst — refuting "no new punch
burst on the second application". -/
theorem c9_idempotence_counterexample :
    (sigStepA "1.1.1.1" none [⟨"9.9.9.9", "", "0080"⟩]).state
      = some ("9.9.9.9", 80) ∧
    (sigStepA "1.1.1.1" (some ("9.9.9.9", 80)) [⟨"9.9.9.9", "", "0080"⟩]).punched
      = some ("9.9.9.9", 80) := by
  constructor <;> decide

/-- Claim C9, amended: applying the same non-empty identity list twice is a
no-op on the second application — tracked state kept, no punch spawned —
provided the first application tracked an address whose rendering equals the
recomputed candidate string (which holds exactly for candidates in canonical
form, e.g. ports without leading zeros). -/
theorem c9_idempotence_amended (myPublicIP : String) (st : Option Addr)
    (peer : PeerInfo) (rest : List PeerInfo) (a : Addr)
    (h1 : (sigStepA myPublicIP st (peer :: rest)).state = some a)
    (h2 : addrToString a = candStrA myPublicIP peer) :
    sigStepA myPublicIP (sigStepA myPublicIP st (peer :: rest)).state
        (peer :: rest)
      = ⟨(sigStepA myPublicIP st (peer :: rest)).state, none⟩ := by
  rw [h1]
  simp [sigStepA, h2]

/-- Claim C9, witness: the amended theorem at the canonical update
`[{public 9.9.9.9, port 80}]` from the untracked state. -/
theorem c9_idempotence_witness :
    sigStepA "1.1.1.1"
        (sigStepA "1.1.1.1" none [⟨"9.9.9.9", "", "80"⟩]).state
        [⟨"9.9.9.9", "", "80"⟩]
      = ⟨(sigStepA "1.1.1.1" none [⟨"9.9.9.9", "", "80"⟩]).state, none⟩ :=
  c9_idempotence_amended "1.1.1.1" none ⟨"9.9.9.9", "", "80"⟩ []
    ("9.9.9.9", 80) (by decide) (by decide)

/-- Claim C10 (confirmed): the `src/client.go` selection reads only the
remote record and targets the remote private IP exactly when it is
non-empty and carries one of the claim's private-range prefixes (`10.`,
`172.16.` through `172.31.`, `192.168.`, `127.` — shown to coincide with
the source's prefix table), the remote public IP otherwise; and on the
record `{public 9.9.9.9, private 8.8.8.8}` with self public IP `9.9.9.9`
the two variants select different hosts. -/
theorem c10_variantB_selection :
    claimPrivateRanges = privateRanges ∧
    (∀ peer : PeerInfo,
      selectHostB peer =
        if peer.private_ip ≠ "" ∧ claimPrivate peer.private_ip = true then
          peer.private_ip
        else peer.public_ip) ∧
    selectIPA "9.9.9.9" ⟨"9.9.9.9", "8.8.8.8", "7"⟩ ≠
      selectHostB ⟨"9.9.9.9", "8.8.8.8", "7"⟩ := by
  have hr : claimPrivateRanges = privateRanges := by decide
  refine ⟨hr, ?_, by decide⟩
  intro peer
  have hcp : claimPrivate peer.private_ip = isPrivateIP peer.private_ip := by
    unfold claimPrivate isPrivateIP
    rw [hr]
  by_cases h1 : peer.private_ip = "" <;>
    by_cases h2 : isPrivateIP peer.private_ip = true <;>
      simp [selectHostB, hcp, h1, h2]

end ClientStreaming
